import Mathlib

/-!
Verification of the weekly-todo calendar, filtering and storage core.

The development is a shallow embedding of the TypeScript sources:

* dates are modelled as integer day numbers (days since 1970-01-01, with the
  local clock identified with UTC and no DST, so a JS `Date` at local midnight
  is exactly a day number); timestamps with a time component are integer
  milliseconds since the epoch;
* the browser storage backends become pure state-passing functions over lists
  of tasks; `throw` becomes `Option`/`Except`/result records;
* JS string rendering and the ISO-week regex are modelled over `List Char`.
-/

namespace WeeklyTodo

/-! ### Data model (src/types/task.ts) -/

/-- Task status, from the union type TaskStatus. -/
inductive TaskStatus where
  | upcoming
  | inProgress
  | completed
  | onHold
deriving DecidableEq

/-- Task priority, from the union type TaskPriority. -/
inductive TaskPriority where
  | low
  | medium
  | high
  | urgent
deriving DecidableEq

/-- The persisted Task entity.  Datetime strings are modelled as integer
milliseconds since the epoch, the date-only deadline as well; null becomes
none. -/
structure Task where
  id : String
  content : String
  status : TaskStatus
  priority : TaskPriority
  deadline : Option Int
  tags : List String
  createdAt : Int
  completedAt : Option Int
  updatedAt : Int
  userId : Option String
  order : Int
deriving DecidableEq

/-- CreateTaskInput: Task without the generated fields, with optional order. -/
structure CreateTaskInput where
  content : String
  status : TaskStatus
  priority : TaskPriority
  deadline : Option Int
  tags : List String
  userId : Option String
  order : Option Int
deriving DecidableEq

/-- UpdateTaskInput: Partial over Task minus id, createdAt, userId.  An outer
none means the field is absent (undefined) from the update payload; for the
nullable fields the inner Option is the stored value, so a supplied null is
some none. -/
structure UpdateTaskInput where
  content : Option String := none
  status : Option TaskStatus := none
  priority : Option TaskPriority := none
  deadline : Option (Option Int) := none
  tags : Option (List String) := none
  completedAt : Option (Option Int) := none
  updatedAt : Option Int := none
  order : Option Int := none
deriving DecidableEq

/-! ### Calendar engine (src/lib/date-utils.ts)

A day number n stands for the JS Date at local midnight of that day;
1970-01-01 is day 0 and was a Thursday. -/

/-- JS Date.prototype.getDay: 0 = Sunday .. 6 = Saturday.  Day 0 (1970-01-01)
was a Thursday, hence the shift by 4. -/
def jsGetDay (n : Int) : Int := (n + 4) % 7

/-- The day-number of January 1 of a Gregorian year, relative to the epoch.
This is the proleptic Gregorian calendar that JS Date implements: 365 days per
year plus the accumulated leap days. -/
def jan1 (y : Int) : Int :=
  365 * (y - 1) + (y - 1) / 4 - (y - 1) / 100 + (y - 1) / 400 - 719162

/-- The Gregorian calendar year containing day n (JS getFullYear at local
time).  A first guess from the 400-year cycle of 146097 days is corrected by
at most one year in either direction. -/
def yearOfDay (n : Int) : Int :=
  let y0 := (400 * (n + 719162)) / 146097 + 1
  if n < jan1 y0 then y0 - 1
  else if jan1 (y0 + 1) ≤ n then y0 + 1
  else y0

/-- Gregorian leap-year rule. -/
def isLeapYear (y : Int) : Bool := (y % 4 = 0 && y % 100 != 0) || y % 400 = 0

/-- Days before the start of month m (1..12) within a year. -/
def daysBeforeMonth (leap : Bool) (m : Int) : Int :=
  (if m ≤ 1 then 0
   else if m = 2 then 31
   else if m = 3 then 59
   else if m = 4 then 90
   else if m = 5 then 120
   else if m = 6 then 151
   else if m = 7 then 181
   else if m = 8 then 212
   else if m = 9 then 243
   else if m = 10 then 273
   else if m = 11 then 304
   else 334)
  + (if leap ∧ 3 ≤ m then 1 else 0)

/-- Day number of a civil date, as JS new Date(y, m - 1, d) at local midnight
(month given 1-based here). -/
def dayOfCivil (y m d : Int) : Int := jan1 y + daysBeforeMonth (isLeapYear y) m + (d - 1)

/-- Result record of getISOWeek. -/
structure YearWeek where
  year : Int
  week : Int
deriving DecidableEq

/-- getISOWeek from date-utils.ts.  dayNum is getDay with Sunday mapped to 7;
d is moved to the Thursday of its ISO week; the week number is
ceil(((d - yearStart)/86400000 + 1) / 7), written with floor division as
(k + 7) / 7 where k is the whole number of days from January 1. -/
def getISOWeek (n : Int) : YearWeek :=
  let dayNum := if jsGetDay n = 0 then 7 else jsGetDay n
  let thursday := n + 4 - dayNum
  let yearStart := jan1 (yearOfDay thursday)
  { year := yearOfDay thursday, week := (thursday - yearStart + 7) / 7 }

/-- getMonday from date-utils.ts: back to the Monday of the ISO week
(local midnight, i.e. the plain day number here). -/
def getMonday (n : Int) : Int :=
  n - jsGetDay n + (if jsGetDay n = 0 then -6 else 1)

/-- getSunday from date-utils.ts: Monday plus six days (the source also sets
the clock to 23:59:59.999; at day granularity it is the same day). -/
def getSunday (n : Int) : Int := getMonday n + 6

/-- WeekInfo value object.  startDate is the Monday day number (midnight in
the source), endDate the Sunday day number (23:59:59.999 in the source). -/
structure WeekInfo where
  year : Int
  week : Int
  startDate : Int
  endDate : Int
deriving DecidableEq

/-- getWeekInfo from date-utils.ts. -/
def getWeekInfo (n : Int) : WeekInfo :=
  let yw := getISOWeek n
  { year := yw.year, week := yw.week, startDate := getMonday n, endDate := getSunday n }

/-- getNextWeek: seven days after the start date, then recompute. -/
def getNextWeek (w : WeekInfo) : WeekInfo := getWeekInfo (w.startDate + 7)

/-- getPreviousWeek: seven days before the start date, then recompute. -/
def getPreviousWeek (w : WeekInfo) : WeekInfo := getWeekInfo (w.startDate - 7)

/-- Milliseconds in a day. -/
def msPerDay : Int := 86400000

/-- Day number of a millisecond timestamp; setHours(0,0,0,0) on the local
clock is flooring to the day in this model. -/
def dayOfTimestamp (t : Int) : Int := t / msPerDay

/-- isDateInWeek from date-utils.ts: the date is floored to midnight, the week
start is floored to midnight and the end raised to 23:59:59.999, so the test
is an inclusive day-level range check. -/
def isDateInWeek (t : Int) (w : WeekInfo) : Bool :=
  decide (w.startDate ≤ dayOfTimestamp t ∧ dayOfTimestamp t ≤ w.endDate)

/-! ### Filtering engine (src/lib/filter-utils.ts) -/

/-- filterTasksByWeekInfo from filter-utils.ts. -/
def filterTasksByWeekInfo (tasks : List Task) (weekInfo : WeekInfo) (showAll : Bool) : List Task :=
  if showAll then tasks
  else
    tasks.filter fun task =>
      if task.status ≠ TaskStatus.completed then true
      else
        match task.completedAt with
        | some c => isDateInWeek c weekInfo
        | none => false

/-! ### ISO week strings (formatISOWeek / parseISOWeek in date-utils.ts) -/

/-- Big-endian decimal digit characters of n, with enough fuel; structural
recursion on the fuel keeps it kernel-computable. -/
def natReprAux (fuel : Nat) (n : Nat) : List Char :=
  match fuel with
  | 0 => []
  | f + 1 => if n = 0 then [] else natReprAux f (n / 10) ++ [Nat.digitChar (n % 10)]

/-- Decimal rendering of a Nat, as JS number-to-string (no padding). -/
def natRepr (n : Nat) : List Char :=
  if n = 0 then ['0'] else natReprAux n n

/-- Decimal rendering of an Int, as JS template interpolation of a number. -/
def intRepr (i : Int) : List Char :=
  if i < 0 then '-' :: natRepr i.natAbs else natRepr i.toNat

/-- String.prototype.padStart(2, c48) where c48 is the zero digit. -/
def padStart2 (s : List Char) : List Char := List.replicate (2 - s.length) '0' ++ s

/-- formatISOWeek from date-utils.ts: the year interpolated unpadded, a dash,
the letter W, the week number padded to two digits. -/
def formatISOWeek (w : WeekInfo) : String :=
  String.mk (intRepr w.year ++ '-' :: 'W' :: padStart2 (intRepr w.week))

/-- Numeric value of a decimal digit character. -/
def charDigitVal (c : Char) : Int := (c.toNat : Int) - 48

/-- The regex from parseISOWeek, a full match of four digits, a dash, W, two
digits. -/
def matchesISOWeekPattern (s : String) : Bool :=
  match s.toList with
  | [c1, c2, c3, c4, c5, c6, c7, c8] =>
      c1.isDigit && c2.isDigit && c3.isDigit && c4.isDigit &&
      c5 == '-' && c6 == 'W' && c7.isDigit && c8.isDigit
  | _ => false

/-- The regex capture groups of parseISOWeek run through parseInt: the year
from the four digit characters, the week from the two. -/
def parseISOWeekNums (s : String) : Option (Int × Int) :=
  match s.toList with
  | [c1, c2, c3, c4, c5, c6, c7, c8] =>
      if c1.isDigit && c2.isDigit && c3.isDigit && c4.isDigit &&
         c5 == '-' && c6 == 'W' && c7.isDigit && c8.isDigit then
        some (1000 * charDigitVal c1 + 100 * charDigitVal c2 + 10 * charDigitVal c3
                + charDigitVal c4,
              10 * charDigitVal c7 + charDigitVal c8)
      else none
  | _ => none

/-- parseISOWeek from date-utils.ts.  A string failing the regex throws in the
source, modelled as none.  Otherwise the Monday is found by anchoring on
January 4 and offsetting by whole weeks, and the result is recomputed through
getWeekInfo. -/
def parseISOWeek (s : String) : Option WeekInfo :=
  match parseISOWeekNums s with
  | none => none
  | some (year, week) =>
      let jan4 := dayOfCivil year 1 4
      let jan4WeekInfo := getWeekInfo jan4
      let weekOffset := week - jan4WeekInfo.week
      let targetMonday := jan4WeekInfo.startDate + 7 * weekOffset
      some (getWeekInfo targetMonday)

/-! ### Storage adapters

The browser stores become explicit values: the localStorage backend holds the
whole task list under one key, the IndexedDB backend is a table keyed by id.
Async methods become pure state-passing functions; a thrown error becomes
none / an error value.  Both update implementations share the completedAt
rules, written once below exactly as the three consecutive if statements of
the source. -/

/-- The object spread of the update payload over the existing task, field by
field; id, createdAt and userId are not in UpdateTaskInput. -/
def applyUpdates (existing : Task) (updates : UpdateTaskInput) : Task :=
  { existing with
    content := updates.content.getD existing.content
    status := updates.status.getD existing.status
    priority := updates.priority.getD existing.priority
    deadline := updates.deadline.getD existing.deadline
    tags := updates.tags.getD existing.tags
    completedAt := updates.completedAt.getD existing.completedAt
    updatedAt := updates.updatedAt.getD existing.updatedAt
    order := updates.order.getD existing.order }

/-- The completedAt handling of LocalStorageAdapter.update and
IndexedDBStorageAdapter.update: three consecutive (not chained) if
statements — set to now on a transition into completed, clear on a transition
out of completed, and let an explicitly supplied completedAt overwrite
whatever the first two decided. -/
def computeCompletedAt (existing : Task) (updates : UpdateTaskInput) (now : Int) : Option Int :=
  let c1 := existing.completedAt
  let c2 :=
    if updates.status = some TaskStatus.completed ∧ existing.status ≠ TaskStatus.completed
    then some now else c1
  let c3 :=
    if updates.status.isSome ∧ updates.status ≠ some TaskStatus.completed
         ∧ existing.status = TaskStatus.completed
    then none else c2
  match updates.completedAt with
  | some v => v
  | none => c3

/-- The updated task built by both update implementations: spread of updates
over the existing task, id and createdAt forced back, updatedAt set to now,
completedAt from the rules above. -/
def buildUpdatedTask (existing : Task) (updates : UpdateTaskInput) (now : Int) : Task :=
  { applyUpdates existing updates with
    id := existing.id
    createdAt := existing.createdAt
    updatedAt := now
    completedAt := computeCompletedAt existing updates now }

/-- LocalStorageAdapter.update: find the task by id (none models the thrown
not-found error), build the updated task, store it back at its index.  The
returned pair is the new stored list and the returned task. -/
def localUpdate (tasks : List Task) (id : String) (updates : UpdateTaskInput)
    (now : Int) : Option (List Task × Task) :=
  match tasks.find? (fun t => t.id == id) with
  | none => none
  | some existingTask =>
      let updatedTask := buildUpdatedTask existingTask updates now
      some (tasks.set (tasks.findIdx (fun t => t.id == id)) updatedTask, updatedTask)

/-- LocalStorageAdapter.bulkUpdate: stamps updatedAt on every task of the
batch and writes that list as the entire stored collection; the previously
stored collection is not read at all.  Returns the new stored list, which is
also the returned list. -/
def localBulkUpdate (updatedTasks : List Task) (now : Int) : List Task :=
  updatedTasks.map fun task => { task with updatedAt := now }

/-- IndexedDB put against a store keyed by id: replace the record with that
key, or append a new record. -/
def idbPut (store : List Task) (task : Task) : List Task :=
  if store.any (fun t => t.id == task.id)
  then store.map (fun t => if t.id == task.id then task else t)
  else store ++ [task]

/-- IndexedDBStorageAdapter.update: same computation as localUpdate, with the
write going through put on the keyed store. -/
def idbUpdate (store : List Task) (id : String) (updates : UpdateTaskInput)
    (now : Int) : Option (List Task × Task) :=
  match store.find? (fun t => t.id == id) with
  | none => none
  | some existingTask =>
      let updatedTask := buildUpdatedTask existingTask updates now
      some (idbPut store updatedTask, updatedTask)

/-- IndexedDBStorageAdapter.bulkUpdate: stamps updatedAt on the batch and puts
each member into the store inside one transaction.  The pair is the new store
and the returned list. -/
def idbBulkUpdate (store : List Task) (updatedTasks : List Task)
    (now : Int) : List Task × List Task :=
  let tasksWithTimestamp := updatedTasks.map fun task => { task with updatedAt := now }
  (tasksWithTimestamp.foldl idbPut store, tasksWithTimestamp)

/-! ### No-op adapter (NoOpStorageAdapter in storage-adapter.ts) -/

namespace NoOpStorageAdapter

/-- getAll resolves with the empty list. -/
def getAll : List Task := []

/-- getById resolves with null. -/
def getById (id : String) : Option Task := none

/-- create rejects. -/
def create (task : CreateTaskInput) : Except String Task :=
  Except.error ("Cannot create task during SSR")

/-- update rejects. -/
def update (id : String) (updates : UpdateTaskInput) : Except String Task :=
  Except.error ("Cannot update task during SSR")

/-- delete rejects. -/
def delete (id : String) : Except String Unit :=
  Except.error ("Cannot delete task during SSR")

/-- bulkUpdate rejects. -/
def bulkUpdate (tasks : List Task) : Except String (List Task) :=
  Except.error ("Cannot bulk update during SSR")

/-- getByStatus resolves with the empty list. -/
def getByStatus (status : TaskStatus) : List Task := []

/-- getByDateRange resolves with the empty list. -/
def getByDateRange (startDate endDate : Int) : List Task := []

/-- clear has an empty body: it resolves successfully and does nothing. -/
def clear : Except String Unit := Except.ok ()

end NoOpStorageAdapter

/-! ### Migration coordinator (src/services/storage/migration.ts)

State: the legacy localStorage value under the tasks key, the persisted
migration flag, and the IndexedDB store contents.  JSON.parse of the legacy
string either throws (malformed), yields a non-array, or yields an array of
records; records are kept as raw string fields since legacy data is
unvalidated.  Failure injection covers the operations that can actually
throw or reject in the browser: JSON.parse (data-driven, via malformed),
the IndexedDB bulk insert, and localStorage.setItem (quota); getItem and
removeItem do not throw. -/

/-- A raw legacy task record: the fields the migration validator looks at,
plus the updatedAt stamp that bulkUpdate refreshes.  An absent field is the
empty string (falsy, like undefined, under the truthiness test). -/
structure LegacyTask where
  id : String
  content : String
  status : String
  updatedAt : String
deriving DecidableEq

/-- Result of JSON.parse on the legacy string. -/
inductive LegacyValue where
  | malformed
  | notArray
  | arr (tasks : List LegacyTask)
deriving DecidableEq

/-- The persisted state the migration touches. -/
structure MigrationState where
  legacy : Option LegacyValue
  migrationFlag : Bool
  idb : List LegacyTask
deriving DecidableEq

/-- MigrationResult from migration.ts; an absent error field is none. -/
structure MigrationResult where
  success : Bool
  tasksCount : Nat
  error : Option String
deriving DecidableEq

/-- Which fallible browser operations throw during this call. -/
structure MigrationFaults where
  bulkUpdateFails : Bool
  setFlagFails : Bool
deriving DecidableEq

/-- Put for the legacy record type, as the IndexedDB store put keyed by id. -/
def legacyPut (store : List LegacyTask) (task : LegacyTask) : List LegacyTask :=
  if store.any (fun t => t.id == task.id)
  then store.map (fun t => if t.id == task.id then task else t)
  else store ++ [task]

/-- The IndexedDB bulkUpdate reached from the migration: stamp updatedAt and
put every record. -/
def legacyBulkInsert (store : List LegacyTask) (tasks : List LegacyTask)
    (now : String) : List LegacyTask :=
  (tasks.map fun task => { task with updatedAt := now }).foldl legacyPut store

/-- The record validation of migration.ts: task.id && task.content &&
task.status, with the empty string as the falsy case. -/
def isValidLegacyTask (t : LegacyTask) : Bool :=
  t.id != "" && t.content != "" && t.status != ""

/-- A failed MigrationResult as built in the catch block. -/
def migrationFailure (msg : String) : MigrationResult :=
  { success := false, tasksCount := 0, error := some msg }

/-- migrateFromLocalStorage from migration.ts, as a transition on the
persisted state.  Every branch mirrors the source: the flag short-circuit,
the missing / unparseable / non-array / empty / all-invalid legacy cases each
setting the flag and reporting zero, and the full path of bulk insert, flag
set, legacy erase.  An exception from an injected fault (or from JSON.parse)
falls into the catch block: the state keeps whatever completed before the
throw and the result reports the failure.  A failed IndexedDB bulk insert is
an aborted transaction and leaves the store unchanged. -/
def migrateFromLocalStorage (s : MigrationState) (f : MigrationFaults)
    (now : String) : MigrationState × MigrationResult :=
  if s.migrationFlag then (s, { success := true, tasksCount := 0, error := none })
  else
    match s.legacy with
    | none =>
        if f.setFlagFails then (s, migrationFailure ("quota exceeded"))
        else ({ s with migrationFlag := true },
              { success := true, tasksCount := 0, error := none })
    | some LegacyValue.malformed => (s, migrationFailure ("Unexpected token in JSON"))
    | some LegacyValue.notArray =>
        if f.setFlagFails then (s, migrationFailure ("quota exceeded"))
        else ({ s with migrationFlag := true },
              { success := true, tasksCount := 0, error := none })
    | some (LegacyValue.arr tasks) =>
        if tasks.isEmpty then
          if f.setFlagFails then (s, migrationFailure ("quota exceeded"))
          else ({ s with migrationFlag := true },
                { success := true, tasksCount := 0, error := none })
        else
          let validTasks := tasks.filter isValidLegacyTask
          if validTasks.isEmpty then
            if f.setFlagFails then (s, migrationFailure ("quota exceeded"))
            else ({ s with migrationFlag := true },
                  { success := true, tasksCount := 0, error := none })
          else if f.bulkUpdateFails then (s, migrationFailure ("IndexedDB error"))
          else
            let s1 := { s with idb := legacyBulkInsert s.idb validTasks now }
            if f.setFlagFails then (s1, migrationFailure ("quota exceeded"))
            else ({ s1 with migrationFlag := true, legacy := none },
                  { success := true, tasksCount := validTasks.length, error := none })

/-- isMigrationNeeded from migration.ts. -/
def isMigrationNeeded (s : MigrationState) : Bool :=
  !s.migrationFlag && s.legacy.isSome

/-! ### Specification-side definitions

These two definitions follow the words of the specification (not the source)
and exist only to be compared against the source translation. -/

/-- Visibility predicate as the specification words it: a task passes the
week filter when its status is not completed, or when it is completed with a
non-null completedAt lying inside the inclusive week window. -/
def specWeekVisible (w : WeekInfo) (task : Task) : Bool :=
  decide (task.status ≠ TaskStatus.completed) ||
  (match task.completedAt with
   | some c => decide (w.startDate ≤ dayOfTimestamp c ∧ dayOfTimestamp c ≤ w.endDate)
   | none => false)

/-- The completedAt update rule as the specification words it: the three
rules tried strictly in order, first match wins — transition into completed
gives now, transition out of completed gives null, an explicitly supplied
completedAt is used only when neither transition applies, and otherwise the
prior value is kept. -/
def specCompletedAtOrdered (existing : Task) (updates : UpdateTaskInput) (now : Int) : Option Int :=
  if updates.status = some TaskStatus.completed ∧ existing.status ≠ TaskStatus.completed then
    some now
  else if updates.status.isSome ∧ updates.status ≠ some TaskStatus.completed
          ∧ existing.status = TaskStatus.completed then
    none
  else
    match updates.completedAt with
    | some v => v
    | none => existing.completedAt

/-- The uncorrected first guess inside yearOfDay, named for the proofs. -/
def yearGuess (n : Int) : Int := (400 * (n + 719162)) / 146097 + 1

/-! ## Calendar arithmetic lemmas -/

theorem yearOfDay_eq_guess (n : Int) :
    yearOfDay n =
      (if n < jan1 (yearGuess n) then yearGuess n - 1
       else if jan1 (yearGuess n + 1) ≤ n then yearGuess n + 1
       else yearGuess n) := rfl

/-- January 1 of the year of day n is not after n. -/
theorem jan1_yearOfDay_le (n : Int) : jan1 (yearOfDay n) ≤ n := by
  rw [yearOfDay_eq_guess]
  unfold yearGuess jan1
  split_ifs <;> omega

/-- Day n is before January 1 of the following year. -/
theorem lt_jan1_yearOfDay_succ (n : Int) : n < jan1 (yearOfDay n + 1) := by
  rw [yearOfDay_eq_guess]
  unfold yearGuess jan1
  split_ifs <;> omega

/-- Consecutive January firsts are 365 or 366 days apart. -/
theorem jan1_gap (y : Int) : jan1 y + 365 ≤ jan1 (y + 1) ∧ jan1 (y + 1) ≤ jan1 y + 366 := by
  unfold jan1
  omega

/-- January 1 is monotone in the year. -/
theorem jan1_mono {a b : Int} (h : a ≤ b) : jan1 a ≤ jan1 b := by
  unfold jan1
  omega

/-- The year of a day is determined by the bracketing January firsts. -/
theorem yearOfDay_unique {y n : Int} (h1 : jan1 y ≤ n) (h2 : n < jan1 (y + 1)) :
    yearOfDay n = y := by
  have c1 := jan1_yearOfDay_le n
  have c2 := lt_jan1_yearOfDay_succ n
  by_contra hne
  rcases lt_or_gt_of_ne hne with hlt | hgt
  · have := jan1_mono (show yearOfDay n + 1 ≤ y by omega)
    omega
  · have := jan1_mono (show y + 1 ≤ yearOfDay n by omega)
    omega

/-- getMonday lands on a Monday. -/
theorem jsGetDay_getMonday (n : Int) : jsGetDay (getMonday n) = 1 := by
  unfold getMonday jsGetDay
  split_ifs <;> omega

/-- getMonday moves at most six days back. -/
theorem getMonday_bounds (n : Int) : n - 6 ≤ getMonday n ∧ getMonday n ≤ n := by
  unfold getMonday jsGetDay
  split_ifs <;> omega

/-- getMonday commutes with shifts by whole weeks. -/
theorem getMonday_add_week_mul (n k : Int) : getMonday (n + 7 * k) = getMonday n + 7 * k := by
  unfold getMonday jsGetDay
  split_ifs <;> omega

/-- A Monday is its own getMonday. -/
theorem getMonday_of_monday {n : Int} (h : jsGetDay n = 1) : getMonday n = n := by
  unfold jsGetDay at h
  unfold getMonday jsGetDay
  split_ifs <;> omega

/-- The nearest-Thursday shift in getISOWeek is the Monday plus three. -/
theorem thursday_eq_monday_add_three (n : Int) :
    n + 4 - (if jsGetDay n = 0 then 7 else jsGetDay n) = getMonday n + 3 := by
  unfold getMonday jsGetDay
  split_ifs <;> omega

/-- getISOWeek via the Monday of the week. -/
theorem getISOWeek_eq_monday (n : Int) :
    getISOWeek n =
      { year := yearOfDay (getMonday n + 3),
        week := (getMonday n + 3 - jan1 (yearOfDay (getMonday n + 3)) + 7) / 7 } := by
  simp only [getISOWeek]
  rw [thursday_eq_monday_add_three]

/-- The ISO week number always lies between 1 and 53. -/
theorem getISOWeek_week_bounds (n : Int) :
    1 ≤ (getISOWeek n).week ∧ (getISOWeek n).week ≤ 53 := by
  rw [getISOWeek_eq_monday]
  have c1 := jan1_yearOfDay_le (getMonday n + 3)
  have c2 := lt_jan1_yearOfDay_succ (getMonday n + 3)
  have hg := jan1_gap (yearOfDay (getMonday n + 3))
  simp only
  omega

/-! ## C1: week filtering -/

/-- C1: filterTasksByWeekInfo returns all tasks unchanged when showAll is
true; otherwise it keeps a task exactly when its status is not completed, or
it is completed with a non-null completedAt falling inside the inclusive
window from startDate to endDate. -/
theorem c1_filter_by_week (tasks : List Task) (w : WeekInfo) :
    filterTasksByWeekInfo tasks w true = tasks ∧
    filterTasksByWeekInfo tasks w false = tasks.filter (specWeekVisible w) := by
  refine ⟨rfl, ?_⟩
  show tasks.filter _ = tasks.filter _
  apply List.filter_congr
  intro task _
  unfold specWeekVisible isDateInWeek
  by_cases hs : task.status = TaskStatus.completed
  · cases task.completedAt <;> simp [hs]
  · cases task.completedAt <;> simp [hs]

/-! ## C8: the no-op adapter -/

/-- C8 counterexample: clear on the no-op adapter does not throw; its body is
empty and it resolves successfully, refuting the claim that every mutating
operation including clear throws. -/
theorem c8_clear_counterexample : NoOpStorageAdapter.clear = Except.ok () := rfl

/-- C8 amended: every query of the no-op adapter returns an empty result and
the mutations create, update, delete and bulkUpdate throw, while clear is a
successful no-op. -/
theorem c8_noop_adapter (id1 id2 id3 : String) (u : UpdateTaskInput)
    (ci : CreateTaskInput) (ts : List Task) (st : TaskStatus) (a b : Int) :
    NoOpStorageAdapter.getAll = [] ∧
    NoOpStorageAdapter.getById id1 = none ∧
    NoOpStorageAdapter.getByStatus st = [] ∧
    NoOpStorageAdapter.getByDateRange a b = [] ∧
    NoOpStorageAdapter.create ci = Except.error ("Cannot create task during SSR") ∧
    NoOpStorageAdapter.update id2 u = Except.error ("Cannot update task during SSR") ∧
    NoOpStorageAdapter.delete id3 = Except.error ("Cannot delete task during SSR") ∧
    NoOpStorageAdapter.bulkUpdate ts = Except.error ("Cannot bulk update during SSR") ∧
    NoOpStorageAdapter.clear = Except.ok () :=
  ⟨rfl, rfl, rfl, rfl, rfl, rfl, rfl, rfl, rfl⟩

/-! ## C2: the completedAt update rules -/

/-- Case analysis of the source completedAt computation: the explicitly
supplied value always wins, otherwise the transition rules fire, otherwise
the prior value is kept. -/
theorem computeCompletedAt_cases (existing : Task) (updates : UpdateTaskInput) (now : Int) :
    computeCompletedAt existing updates now =
      (match updates.completedAt with
       | some v => v
       | none =>
           if updates.status = some TaskStatus.completed ∧ existing.status ≠ TaskStatus.completed
           then some now
           else if updates.status.isSome ∧ updates.status ≠ some TaskStatus.completed
                   ∧ existing.status = TaskStatus.completed
           then none
           else existing.completedAt) := by
  unfold computeCompletedAt
  cases updates.completedAt
  · by_cases h1 : updates.status = some TaskStatus.completed
        ∧ existing.status ≠ TaskStatus.completed
    · have h2 : ¬(updates.status.isSome ∧ updates.status ≠ some TaskStatus.completed
          ∧ existing.status = TaskStatus.completed) := by
        intro h2
        exact h2.2.1 h1.1
      simp [h1, h2]
    · by_cases h2 : updates.status.isSome ∧ updates.status ≠ some TaskStatus.completed
          ∧ existing.status = TaskStatus.completed
      · simp [h1, h2]
      · simp [h1, h2]
  · simp

/-- C2 counterexample: updating an upcoming task to completed while
explicitly supplying completedAt 42 at now = 100.  The code keeps the
supplied 42; the claimed strict rule order would fire rule 1 and produce
100. -/
theorem c2_counterexample :
    (localUpdate
      [⟨"t1", "a task", TaskStatus.upcoming, TaskPriority.low, none, [], 0, none, 0, none, 0⟩]
      "t1" { status := some TaskStatus.completed, completedAt := some (some 42) } 100).map
        (fun r => r.2.completedAt) = some (some 42) ∧
    specCompletedAtOrdered
      ⟨"t1", "a task", TaskStatus.upcoming, TaskPriority.low, none, [], 0, none, 0, none, 0⟩
      { status := some TaskStatus.completed, completedAt := some (some 42) } 100 = some 100 ∧
    some (42 : Int) ≠ some (100 : Int) := by
  refine ⟨by decide, by decide, by decide⟩

/-- C2 amended: for both backends, update always refreshes updatedAt to now,
and computes completedAt as follows — an explicitly supplied completedAt is
always used; otherwise a transition into completed sets it to now, a
transition out of completed clears it, and if no rule applies the prior value
is kept. -/
theorem c2_update_completed_at (tasks : List Task) (id : String)
    (updates : UpdateTaskInput) (now : Int) (res : List Task × Task) (existing : Task)
    (hfind : tasks.find? (fun t => t.id == id) = some existing)
    (h : localUpdate tasks id updates now = some res ∨
         idbUpdate tasks id updates now = some res) :
    res.2.updatedAt = now ∧
    res.2.completedAt =
      (match updates.completedAt with
       | some v => v
       | none =>
           if updates.status = some TaskStatus.completed ∧ existing.status ≠ TaskStatus.completed
           then some now
           else if updates.status.isSome ∧ updates.status ≠ some TaskStatus.completed
                   ∧ existing.status = TaskStatus.completed
           then none
           else existing.completedAt) := by
  have hres : res.2 = buildUpdatedTask existing updates now := by
    rcases h with h | h
    · unfold localUpdate at h
      rw [hfind] at h
      cases h
      rfl
    · unfold idbUpdate at h
      rw [hfind] at h
      cases h
      rfl
  rw [hres]
  refine ⟨rfl, ?_⟩
  show computeCompletedAt existing updates now = _
  exact computeCompletedAt_cases existing updates now

/-- C2 witness: the amended rules evaluated on a priority-only update of an
upcoming task at now = 5: completedAt stays null, updatedAt becomes 5. -/
theorem c2_update_witness :
    ([⟨"t1", "a task", TaskStatus.upcoming, TaskPriority.low, none, [], 0, none, 0, none, 0⟩]
        : List Task).find? (fun t => t.id == "t1") =
      some ⟨"t1", "a task", TaskStatus.upcoming, TaskPriority.low, none, [], 0, none, 0, none, 0⟩ ∧
    (localUpdate
        [⟨"t1", "a task", TaskStatus.upcoming, TaskPriority.low, none, [], 0, none, 0, none, 0⟩]
        "t1" { priority := some TaskPriority.high } 5 =
      some ([⟨"t1", "a task", TaskStatus.upcoming, TaskPriority.high, none, [], 0, none, 5, none, 0⟩],
            ⟨"t1", "a task", TaskStatus.upcoming, TaskPriority.high, none, [], 0, none, 5, none, 0⟩) ∨
     idbUpdate
        [⟨"t1", "a task", TaskStatus.upcoming, TaskPriority.low, none, [], 0, none, 0, none, 0⟩]
        "t1" { priority := some TaskPriority.high } 5 =
      some ([⟨"t1", "a task", TaskStatus.upcoming, TaskPriority.high, none, [], 0, none, 5, none, 0⟩],
            ⟨"t1", "a task", TaskStatus.upcoming, TaskPriority.high, none, [], 0, none, 5, none, 0⟩)) ∧
    ((([⟨"t1", "a task", TaskStatus.upcoming, TaskPriority.high, none, [], 0, none, 5, none, 0⟩],
        ⟨"t1", "a task", TaskStatus.upcoming, TaskPriority.high, none, [], 0, none, 5, none, 0⟩)
        : List Task × Task).2.updatedAt = 5 ∧
     (([⟨"t1", "a task", TaskStatus.upcoming, TaskPriority.high, none, [], 0, none, 5, none, 0⟩],
        ⟨"t1", "a task", TaskStatus.upcoming, TaskPriority.high, none, [], 0, none, 5, none, 0⟩)
        : List Task × Task).2.completedAt = none) :=
  ⟨by decide, Or.inl (by decide),
   c2_update_completed_at
     [⟨"t1", "a task", TaskStatus.upcoming, TaskPriority.low, none, [], 0, none, 0, none, 0⟩]
     "t1" { priority := some TaskPriority.high } 5
     ([⟨"t1", "a task", TaskStatus.upcoming, TaskPriority.high, none, [], 0, none, 5, none, 0⟩],
      ⟨"t1", "a task", TaskStatus.upcoming, TaskPriority.high, none, [], 0, none, 5, none, 0⟩)
     ⟨"t1", "a task", TaskStatus.upcoming, TaskPriority.low, none, [], 0, none, 0, none, 0⟩
     (by decide) (Or.inl (by decide))⟩

/-! ## C3: bulkUpdate -/

/-- Put keyed by id does not disturb records with a different id. -/
theorem mem_idbPut_of_ne {s : List Task} {t b : Task} (ht : t ∈ s) (hne : b.id ≠ t.id) :
    t ∈ idbPut s b := by
  unfold idbPut
  split_ifs with h
  · refine List.mem_map.mpr ⟨t, ht, ?_⟩
    rw [if_neg]
    simp only [beq_iff_eq]
    exact fun heq => hne heq.symm
  · exact List.mem_append_left _ ht

/-- Folding puts whose ids all differ from t.id preserves membership of t. -/
theorem fold_idbPut_preserves {l s : List Task} {t : Task}
    (ht : t ∈ s) (h : ∀ b ∈ l, b.id ≠ t.id) : t ∈ l.foldl idbPut s := by
  induction l generalizing s with
  | nil => exact ht
  | cons x xs ih =>
      exact ih (mem_idbPut_of_ne ht (h x (by simp))) (fun b hb => h b (by simp [hb]))

/-- A put record is a member of the store afterwards. -/
theorem mem_idbPut_self (s : List Task) (b : Task) : b ∈ idbPut s b := by
  unfold idbPut
  split_ifs with h
  · rcases List.any_eq_true.mp h with ⟨x, hx, hxb⟩
    exact List.mem_map.mpr ⟨x, hx, by simp [hxb]⟩
  · exact List.mem_append_right _ (by simp)

/-- Folding puts with pairwise distinct ids makes every put record a member. -/
theorem fold_idbPut_mem {l s : List Task} {b : Task}
    (hb : b ∈ l) (hnodup : (l.map Task.id).Nodup) : b ∈ l.foldl idbPut s := by
  induction l generalizing s with
  | nil => cases hb
  | cons x xs ih =>
      rw [List.map_cons] at hnodup
      have hn := List.nodup_cons.mp hnodup
      rcases List.mem_cons.mp hb with rfl | hb2
      · rw [List.foldl_cons]
        refine fold_idbPut_preserves (mem_idbPut_self s b) ?_
        intro c hc heq
        exact hn.1 (heq ▸ List.mem_map_of_mem Task.id hc)
      · rw [List.foldl_cons]
        exact ih hb2 hn.2

/-- C3 counterexample: with tasks t1 and t2 stored, the localStorage backend
bulkUpdate on the batch containing only t1 writes the stamped batch as the
whole collection, so t2 is no longer present, contradicting the claim that
tasks outside the batch remain stored. -/
theorem c3_counterexample :
    localBulkUpdate
      [⟨"t1", "a task", TaskStatus.upcoming, TaskPriority.low, none, [], 0, none, 0, none, 0⟩] 5 =
      [⟨"t1", "a task", TaskStatus.upcoming, TaskPriority.low, none, [], 0, none, 5, none, 0⟩] ∧
    (⟨"t2", "другая", TaskStatus.upcoming, TaskPriority.low, none, [], 0, none, 0, none, 1⟩ : Task) ∉
      localBulkUpdate
        [⟨"t1", "a task", TaskStatus.upcoming, TaskPriority.low, none, [], 0, none, 0, none, 0⟩] 5 := by
  refine ⟨by decide, by decide⟩

/-- C3 amended: the localStorage backend replaces the entire stored
collection with the stamped batch (so stored tasks outside the batch are
dropped); the IndexedDB backend puts each stamped batch member and keeps
every stored task whose id is outside the batch unchanged, and, when the
batch ids are pairwise distinct, contains every batch member with updatedAt
refreshed.  Each call is a single state transition, so a reader sees either
the old or the new collection. -/
theorem c3_bulk_update (store batch : List Task) (now : Int) (t b : Task) :
    localBulkUpdate batch now = batch.map (fun task => { task with updatedAt := now }) ∧
    (t ∈ store → (∀ x ∈ batch, x.id ≠ t.id) → t ∈ (idbBulkUpdate store batch now).1) ∧
    (b ∈ batch → (batch.map Task.id).Nodup →
      { b with updatedAt := now } ∈ (idbBulkUpdate store batch now).1) := by
  refine ⟨rfl, ?_, ?_⟩
  · intro ht hne
    unfold idbBulkUpdate
    refine fold_idbPut_preserves ht ?_
    intro x hx
    rcases List.mem_map.mp hx with ⟨x0, hx0, rfl⟩
    exact hne x0 hx0
  · intro hb hnodup
    unfold idbBulkUpdate
    refine fold_idbPut_mem (List.mem_map_of_mem _ hb) ?_
    have hm : (batch.map (fun task => ({ task with updatedAt := now } : Task))).map Task.id
        = batch.map Task.id := by
      rw [List.map_map]
      rfl
    rw [hm]
    exact hnodup

/-- C3 witness: the amended statement evaluated with store [t1, t2] and batch
[t1] at now = 5 on the IndexedDB backend: t2 survives untouched and the
stamped t1 is present. -/
theorem c3_bulk_update_witness :
    ((⟨"t2", "b task", TaskStatus.onHold, TaskPriority.low, none, [], 0, none, 0, none, 1⟩ : Task) ∈
        ([⟨"t1", "a task", TaskStatus.upcoming, TaskPriority.low, none, [], 0, none, 0, none, 0⟩,
          ⟨"t2", "b task", TaskStatus.onHold, TaskPriority.low, none, [], 0, none, 0, none, 1⟩]
          : List Task)) ∧
    ((⟨"t2", "b task", TaskStatus.onHold, TaskPriority.low, none, [], 0, none, 0, none, 1⟩ : Task) ∈
      (idbBulkUpdate
        [⟨"t1", "a task", TaskStatus.upcoming, TaskPriority.low, none, [], 0, none, 0, none, 0⟩,
         ⟨"t2", "b task", TaskStatus.onHold, TaskPriority.low, none, [], 0, none, 0, none, 1⟩]
        [⟨"t1", "a task", TaskStatus.upcoming, TaskPriority.low, none, [], 0, none, 0, none, 0⟩]
        5).1) ∧
    ((⟨"t1", "a task", TaskStatus.upcoming, TaskPriority.low, none, [], 0, none, 5, none, 0⟩ : Task) ∈
      (idbBulkUpdate
        [⟨"t1", "a task", TaskStatus.upcoming, TaskPriority.low, none, [], 0, none, 0, none, 0⟩,
         ⟨"t2", "b task", TaskStatus.onHold, TaskPriority.low, none, [], 0, none, 0, none, 1⟩]
        [⟨"t1", "a task", TaskStatus.upcoming, TaskPriority.low, none, [], 0, none, 0, none, 0⟩]
        5).1) :=
  ⟨by decide,
   (c3_bulk_update
      [⟨"t1", "a task", TaskStatus.upcoming, TaskPriority.low, none, [], 0, none, 0, none, 0⟩,
       ⟨"t2", "b task", TaskStatus.onHold, TaskPriority.low, none, [], 0, none, 0, none, 1⟩]
      [⟨"t1", "a task", TaskStatus.upcoming, TaskPriority.low, none, [], 0, none, 0, none, 0⟩]
      5
      ⟨"t2", "b task", TaskStatus.onHold, TaskPriority.low, none, [], 0, none, 0, none, 1⟩
      ⟨"t1", "a task", TaskStatus.upcoming, TaskPriority.low, none, [], 0, none, 0, none, 0⟩).2.1
      (by decide) (by decide),
   (c3_bulk_update
      [⟨"t1", "a task", TaskStatus.upcoming, TaskPriority.low, none, [], 0, none, 0, none, 0⟩,
       ⟨"t2", "b task", TaskStatus.onHold, TaskPriority.low, none, [], 0, none, 0, none, 1⟩]
      [⟨"t1", "a task", TaskStatus.upcoming, TaskPriority.low, none, [], 0, none, 0, none, 0⟩]
      5
      ⟨"t2", "b task", TaskStatus.onHold, TaskPriority.low, none, [], 0, none, 0, none, 1⟩
      ⟨"t1", "a task", TaskStatus.upcoming, TaskPriority.low, none, [], 0, none, 0, none, 0⟩).2.2
      (by decide) (by decide)⟩

/-! ## Migration lemmas and claims C6, C7, C10 -/

/-- With the flag already set, migrate is a no-op reporting success and
zero. -/
theorem migrate_flag_done (s : MigrationState) (f : MigrationFaults) (now : String)
    (h : s.migrationFlag = true) :
    migrateFromLocalStorage s f now = (s, { success := true, tasksCount := 0, error := none }) := by
  unfold migrateFromLocalStorage
  rw [if_pos h]

/-- A successful migrate call always leaves the flag set. -/
theorem migrate_success_flag (s : MigrationState) (f : MigrationFaults) (now : String)
    (h : (migrateFromLocalStorage s f now).2.success = true) :
    (migrateFromLocalStorage s f now).1.migrationFlag = true := by
  obtain ⟨legacy, flag, idb⟩ := s
  unfold migrateFromLocalStorage at h ⊢
  cases flag
  · rcases legacy with _ | lv
    · simp only [Bool.false_eq_true, if_false] at h ⊢
      split_ifs at h ⊢ <;> simp_all [migrationFailure]
    · cases lv <;> simp only [Bool.false_eq_true, if_false] at h ⊢ <;>
        (try split_ifs at h ⊢) <;> simp_all [migrationFailure]
  · simp

/-- C6: with the migration flag already DONE, migrate returns success with
count 0 and changes nothing; consequently a second call right after any
successful call reports success with count 0 and leaves the state as it
was. -/
theorem c6_migrate_idempotent :
    (∀ s f now, s.migrationFlag = true →
        migrateFromLocalStorage s f now =
          (s, { success := true, tasksCount := 0, error := none })) ∧
    (∀ s f now f2 now2, (migrateFromLocalStorage s f now).2.success = true →
        migrateFromLocalStorage (migrateFromLocalStorage s f now).1 f2 now2 =
          ((migrateFromLocalStorage s f now).1,
           { success := true, tasksCount := 0, error := none })) :=
  ⟨fun s f now h => migrate_flag_done s f now h,
   fun s f now f2 now2 h =>
     migrate_flag_done (migrateFromLocalStorage s f now).1 f2 now2
       (migrate_success_flag s f now h)⟩

/-- C6 witness: a state with the flag set is untouched, and after a
successful migration of one valid record a second call reports success with
count 0. -/
theorem c6_migrate_idempotent_witness :
    ((⟨some (LegacyValue.arr [⟨"a", "b", "upcoming", ""⟩]), true, []⟩
        : MigrationState).migrationFlag = true) ∧
    migrateFromLocalStorage
        ⟨some (LegacyValue.arr [⟨"a", "b", "upcoming", ""⟩]), true, []⟩ ⟨false, false⟩ "t" =
      (⟨some (LegacyValue.arr [⟨"a", "b", "upcoming", ""⟩]), true, []⟩,
       { success := true, tasksCount := 0, error := none }) ∧
    ((migrateFromLocalStorage
        ⟨some (LegacyValue.arr [⟨"a", "b", "upcoming", ""⟩]), false, []⟩
        ⟨false, false⟩ "t").2.success = true) ∧
    migrateFromLocalStorage
        (migrateFromLocalStorage
          ⟨some (LegacyValue.arr [⟨"a", "b", "upcoming", ""⟩]), false, []⟩
          ⟨false, false⟩ "t").1 ⟨false, false⟩ "u" =
      ((migrateFromLocalStorage
          ⟨some (LegacyValue.arr [⟨"a", "b", "upcoming", ""⟩]), false, []⟩
          ⟨false, false⟩ "t").1,
       { success := true, tasksCount := 0, error := none }) :=
  ⟨rfl,
   c6_migrate_idempotent.1
     ⟨some (LegacyValue.arr [⟨"a", "b", "upcoming", ""⟩]), true, []⟩ ⟨false, false⟩ "t" rfl,
   by decide,
   c6_migrate_idempotent.2
     ⟨some (LegacyValue.arr [⟨"a", "b", "upcoming", ""⟩]), false, []⟩ ⟨false, false⟩ "t"
     ⟨false, false⟩ "u" (by decide)⟩

/-- C7: when migrate reports failure, the result carries an error
description, the count is 0, the migration flag is still unset and the
legacy store is untouched. -/
theorem c7_migrate_failure (s : MigrationState) (f : MigrationFaults) (now : String)
    (h : (migrateFromLocalStorage s f now).2.success = false) :
    (migrateFromLocalStorage s f now).1.migrationFlag = false ∧
    (migrateFromLocalStorage s f now).1.legacy = s.legacy ∧
    (migrateFromLocalStorage s f now).2.error.isSome = true ∧
    (migrateFromLocalStorage s f now).2.tasksCount = 0 := by
  obtain ⟨legacy, flag, idb⟩ := s
  unfold migrateFromLocalStorage at h ⊢
  cases flag
  · rcases legacy with _ | lv
    · simp only [Bool.false_eq_true, if_false] at h ⊢
      split_ifs at h ⊢ <;> simp_all [migrationFailure]
    · cases lv <;> simp only [Bool.false_eq_true, if_false] at h ⊢ <;>
        (try split_ifs at h ⊢) <;> simp_all [migrationFailure]
  · simp at h

/-- C7 witness: unparseable legacy JSON fails the migration, leaving the flag
unset and the legacy value in place, with an error message reported. -/
theorem c7_migrate_failure_witness :
    ((migrateFromLocalStorage ⟨some LegacyValue.malformed, false, []⟩
        ⟨false, false⟩ "t").2.success = false) ∧
    ((migrateFromLocalStorage ⟨some LegacyValue.malformed, false, []⟩
        ⟨false, false⟩ "t").1.migrationFlag = false ∧
     (migrateFromLocalStorage ⟨some LegacyValue.malformed, false, []⟩
        ⟨false, false⟩ "t").1.legacy =
       (⟨some LegacyValue.malformed, false, []⟩ : MigrationState).legacy ∧
     (migrateFromLocalStorage ⟨some LegacyValue.malformed, false, []⟩
        ⟨false, false⟩ "t").2.error.isSome = true ∧
     (migrateFromLocalStorage ⟨some LegacyValue.malformed, false, []⟩
        ⟨false, false⟩ "t").2.tasksCount = 0) :=
  ⟨by decide,
   c7_migrate_failure ⟨some LegacyValue.malformed, false, []⟩ ⟨false, false⟩ "t" (by decide)⟩

/-- C10: a nonempty legacy array in which every record fails the id, content,
status validation makes migrate set the flag to DONE and report success with
count 0, while the legacy store keeps the invalid records — they are not
erased and are excluded from any later migration. -/
theorem c10_all_invalid_records (s : MigrationState) (l : List LegacyTask)
    (f : MigrationFaults) (now : String)
    (h1 : s.migrationFlag = false) (h2 : s.legacy = some (LegacyValue.arr l))
    (h3 : l ≠ []) (h4 : ∀ t ∈ l, isValidLegacyTask t = false)
    (h5 : f.setFlagFails = false) :
    migrateFromLocalStorage s f now =
      ({ s with migrationFlag := true }, { success := true, tasksCount := 0, error := none }) ∧
    ({ s with migrationFlag := true } : MigrationState).legacy = some (LegacyValue.arr l) := by
  have hfilter : l.filter isValidLegacyTask = [] := by
    rw [List.filter_eq_nil_iff]
    intro a ha
    simp [h4 a ha]
  obtain ⟨legacy, flag, idb⟩ := s
  simp only at h1 h2
  subst h1 h2
  unfold migrateFromLocalStorage
  cases l with
  | nil => exact absurd rfl h3
  | cons x xs =>
      simp only [Bool.false_eq_true, if_false, List.isEmpty_cons, hfilter]
      simp [h5]

/-- C10 witness: one legacy record with an empty id is dropped, the flag is
set, success with count 0 is reported and the record stays in the legacy
store. -/
theorem c10_all_invalid_records_witness :
    ((⟨some (LegacyValue.arr [⟨"", "b", "upcoming", ""⟩]), false, []⟩
        : MigrationState).migrationFlag = false) ∧
    (migrateFromLocalStorage
        ⟨some (LegacyValue.arr [⟨"", "b", "upcoming", ""⟩]), false, []⟩ ⟨false, false⟩ "t" =
      ({ (⟨some (LegacyValue.arr [⟨"", "b", "upcoming", ""⟩]), false, []⟩ : MigrationState) with
          migrationFlag := true },
       { success := true, tasksCount := 0, error := none }) ∧
     ({ (⟨some (LegacyValue.arr [⟨"", "b", "upcoming", ""⟩]), false, []⟩ : MigrationState) with
          migrationFlag := true } : MigrationState).legacy =
       some (LegacyValue.arr [⟨"", "b", "upcoming", ""⟩])) :=
  ⟨rfl,
   c10_all_invalid_records
     ⟨some (LegacyValue.arr [⟨"", "b", "upcoming", ""⟩]), false, []⟩
     [⟨"", "b", "upcoming", ""⟩] ⟨false, false⟩ "t"
     rfl rfl (by decide) (by decide) rfl⟩

/-! ## C4: ISO year boundary -/

/-- C4: a December date (the last 31 days before January 1 of year y+1)
whose ISO week is 1 belongs to ISO year y+1; a January date (the first 31
days from January 1 of year y) whose ISO week is 52 or more belongs to ISO
year y-1 with week at most 53; in particular 2024-12-30 is week 1 of 2025
and 2023-01-01 is week 52 of 2022. -/
theorem c4_iso_year_boundary :
    (∀ y n, jan1 (y + 1) - 31 ≤ n → n < jan1 (y + 1) → (getISOWeek n).week = 1 →
        (getISOWeek n).year = y + 1) ∧
    (∀ y n, jan1 y ≤ n → n < jan1 y + 31 → 52 ≤ (getISOWeek n).week →
        (getISOWeek n).year = y - 1 ∧ (getISOWeek n).week ≤ 53) ∧
    getISOWeek (dayOfCivil 2024 12 30) = { year := 2025, week := 1 } ∧
    getISOWeek (dayOfCivil 2023 1 1) = { year := 2022, week := 52 } := by
  refine ⟨?_, ?_, by decide, by decide⟩
  · intro y n hd1 hd2 hw
    have hb := getMonday_bounds n
    have c1 := jan1_yearOfDay_le (getMonday n + 3)
    have c2 := lt_jan1_yearOfDay_succ (getMonday n + 3)
    have hg1 := jan1_gap y
    have hg2 := jan1_gap (y + 1)
    simp only [getISOWeek_eq_monday] at hw ⊢
    by_cases ht : jan1 (y + 1) ≤ getMonday n + 3
    · exact yearOfDay_unique ht (by omega)
    · exfalso
      have hy : yearOfDay (getMonday n + 3) = y := yearOfDay_unique (by omega) (by omega)
      rw [hy] at hw
      omega
  · intro y n hd1 hd2 hw
    refine ⟨?_, (getISOWeek_week_bounds n).2⟩
    have hb := getMonday_bounds n
    have c1 := jan1_yearOfDay_le (getMonday n + 3)
    have c2 := lt_jan1_yearOfDay_succ (getMonday n + 3)
    have hg1 := jan1_gap y
    have hg0 := jan1_gap (y - 1)
    have hy1 : jan1 (y - 1 + 1) = jan1 y := by
      rw [show y - 1 + 1 = y from by omega]
    simp only [getISOWeek_eq_monday] at hw ⊢
    by_cases ht : jan1 y ≤ getMonday n + 3
    · exfalso
      have hy : yearOfDay (getMonday n + 3) = y := yearOfDay_unique ht (by omega)
      rw [hy] at hw
      omega
    · exact yearOfDay_unique (by omega) (by omega)

/-- C4 witness: the December rule applied at 2024-12-30, which is week 1 and
is assigned to ISO year 2025. -/
theorem c4_iso_year_boundary_witness :
    (jan1 (2024 + 1) - 31 ≤ dayOfCivil 2024 12 30) ∧
    (dayOfCivil 2024 12 30 < jan1 (2024 + 1)) ∧
    ((getISOWeek (dayOfCivil 2024 12 30)).week = 1) ∧
    (getISOWeek (dayOfCivil 2024 12 30)).year = 2024 + 1 :=
  ⟨by decide, by decide, by decide,
   c4_iso_year_boundary.1 2024 (dayOfCivil 2024 12 30) (by decide) (by decide) (by decide)⟩

/-! ## String rendering lemmas -/

/-- The fuel recursion renders the base-10 digits in big-endian order. -/
theorem natReprAux_eq_digits (fuel : Nat) :
    ∀ n, n ≤ fuel → natReprAux fuel n = (Nat.digits 10 n).reverse.map Nat.digitChar := by
  induction fuel with
  | zero =>
      intro n hn
      have h0 : n = 0 := by omega
      subst h0
      simp [natReprAux]
  | succ f ih =>
      intro n hn
      show (if n = 0 then [] else natReprAux f (n / 10) ++ [Nat.digitChar (n % 10)]) = _
      by_cases hn0 : n = 0
      · simp [hn0]
      · rw [if_neg hn0, Nat.digits_def' (show (1 : Nat) < 10 by norm_num) (show 0 < n by omega),
            ih (n / 10) (by omega)]
        simp

/-- natRepr through Mathlib digits. -/
theorem natRepr_eq_digits (n : Nat) :
    natRepr n = if n = 0 then ['0'] else (Nat.digits 10 n).reverse.map Nat.digitChar := by
  unfold natRepr
  split_ifs
  · rfl
  · exact natReprAux_eq_digits n n le_rfl

/-- Reading a digit character back as a number. -/
theorem charDigitVal_digitChar {d : Nat} (h : d < 10) :
    charDigitVal (Nat.digitChar d) = (d : Int) := by
  unfold charDigitVal
  interval_cases d <;> decide

/-- Digit characters pass isDigit. -/
theorem isDigit_digitChar {d : Nat} (h : d < 10) : (Nat.digitChar d).isDigit = true := by
  interval_cases d <;> decide

/-- Numbers between consecutive powers of ten have that many digits. -/
theorem digits_len_of_bounds {y k : Nat} (hk : 10 ^ k ≤ y) (hy : y < 10 ^ (k + 1)) :
    (Nat.digits 10 y).length = k + 1 := by
  have hpow : 1 ≤ 10 ^ k := Nat.one_le_pow k 10 (by norm_num)
  rw [Nat.digits_len 10 y (by norm_num) (by omega)]
  have := Nat.log_eq_of_pow_le_of_lt_pow hk hy
  omega

/-- A four-digit number renders as exactly four digit characters. -/
theorem natRepr_four {y : Nat} (h1 : 1000 ≤ y) (h2 : y ≤ 9999) :
    ∃ e0 e1 e2 e3, e0 < 10 ∧ e1 < 10 ∧ e2 < 10 ∧ e3 < 10 ∧
      y = e0 + 10 * (e1 + 10 * (e2 + 10 * e3)) ∧
      natRepr y = [Nat.digitChar e3, Nat.digitChar e2, Nat.digitChar e1, Nat.digitChar e0] := by
  have hlen : (Nat.digits 10 y).length = 4 :=
    digits_len_of_bounds (k := 3) (by norm_num; omega) (by norm_num; omega)
  rcases hd : Nat.digits 10 y with _ | ⟨e0, _ | ⟨e1, _ | ⟨e2, _ | ⟨e3, _ | ⟨e4, rest⟩⟩⟩⟩⟩ <;>
    rw [hd] at hlen <;> simp at hlen
  have he0 : e0 < 10 := Nat.digits_lt_base (by norm_num) (by rw [hd]; simp)
  have he1 : e1 < 10 := Nat.digits_lt_base (by norm_num) (by rw [hd]; simp)
  have he2 : e2 < 10 := Nat.digits_lt_base (by norm_num) (by rw [hd]; simp)
  have he3 : e3 < 10 := Nat.digits_lt_base (by norm_num) (by rw [hd]; simp)
  have hval := Nat.ofDigits_digits 10 y
  rw [hd] at hval
  simp [Nat.ofDigits] at hval
  refine ⟨e0, e1, e2, e3, he0, he1, he2, he3, by omega, ?_⟩
  rw [natRepr_eq_digits, if_neg (by omega), hd]
  simp

/-- A week number between 1 and 53, rendered and padded to two characters,
consists of two digit characters encoding its value. -/
theorem natRepr_week {m : Nat} (h1 : 1 ≤ m) (h2 : m ≤ 53) :
    ∃ p1 p2, p1.isDigit = true ∧ p2.isDigit = true ∧
      padStart2 (natRepr m) = [p1, p2] ∧
      10 * charDigitVal p1 + charDigitVal p2 = (m : Int) := by
  by_cases hm : m < 10
  · have hlen : (Nat.digits 10 m).length = 1 :=
      digits_len_of_bounds (k := 0) (by norm_num; omega) (by norm_num; omega)
    rcases hd : Nat.digits 10 m with _ | ⟨e0, _ | ⟨e1, rest⟩⟩ <;> rw [hd] at hlen <;> simp at hlen
    have he0 : e0 < 10 := Nat.digits_lt_base (by norm_num) (by rw [hd]; simp)
    have hval := Nat.ofDigits_digits 10 m
    rw [hd] at hval
    simp [Nat.ofDigits] at hval
    refine ⟨'0', Nat.digitChar e0, by decide, isDigit_digitChar he0, ?_, ?_⟩
    · rw [natRepr_eq_digits, if_neg (by omega), hd]
      simp [padStart2]
    · rw [charDigitVal_digitChar he0]
      have h0 : charDigitVal '0' = 0 := by decide
      omega
  · have hlen : (Nat.digits 10 m).length = 2 :=
      digits_len_of_bounds (k := 1) (by norm_num; omega) (by norm_num; omega)
    rcases hd : Nat.digits 10 m with _ | ⟨e0, _ | ⟨e1, _ | ⟨e2, rest⟩⟩⟩ <;>
      rw [hd] at hlen <;> simp at hlen
    have he0 : e0 < 10 := Nat.digits_lt_base (by norm_num) (by rw [hd]; simp)
    have he1 : e1 < 10 := Nat.digits_lt_base (by norm_num) (by rw [hd]; simp)
    have hval := Nat.ofDigits_digits 10 m
    rw [hd] at hval
    simp [Nat.ofDigits] at hval
    refine ⟨Nat.digitChar e1, Nat.digitChar e0, isDigit_digitChar he1, isDigit_digitChar he0,
      ?_, ?_⟩
    · rw [natRepr_eq_digits, if_neg (by omega), hd]
      simp [padStart2]
    · rw [charDigitVal_digitChar he0, charDigitVal_digitChar he1]
      omega

/-- parseISOWeekNums on an explicit eight-character string. -/
theorem parseISOWeekNums_eight (c1 c2 c3 c4 c5 c6 c7 c8 : Char) :
    parseISOWeekNums (String.mk [c1, c2, c3, c4, c5, c6, c7, c8]) =
      (if c1.isDigit && c2.isDigit && c3.isDigit && c4.isDigit &&
          c5 == '-' && c6 == 'W' && c7.isDigit && c8.isDigit then
        some (1000 * charDigitVal c1 + 100 * charDigitVal c2 + 10 * charDigitVal c3
                + charDigitVal c4,
              10 * charDigitVal c7 + charDigitVal c8)
      else none) := rfl

/-- Formatting a WeekInfo with a four-digit year and a valid week number and
parsing the numeric fields back is the identity. -/
theorem parse_format_nums (w : WeekInfo) (hy1 : 1000 ≤ w.year) (hy2 : w.year ≤ 9999)
    (hw1 : 1 ≤ w.week) (hw2 : w.week ≤ 53) :
    parseISOWeekNums (formatISOWeek w) = some (w.year, w.week) := by
  obtain ⟨e0, e1, e2, e3, he0, he1, he2, he3, hyval, hyrep⟩ :=
    natRepr_four (y := w.year.toNat) (by omega) (by omega)
  obtain ⟨p1, p2, hp1, hp2, hprep, hpval⟩ :=
    natRepr_week (m := w.week.toNat) (by omega) (by omega)
  have hstr : formatISOWeek w =
      String.mk [Nat.digitChar e3, Nat.digitChar e2, Nat.digitChar e1, Nat.digitChar e0,
                 '-', 'W', p1, p2] := by
    unfold formatISOWeek intRepr
    rw [if_neg (show ¬ w.year < 0 by omega), if_neg (show ¬ w.week < 0 by omega),
        hyrep, hprep]
    rfl
  rw [hstr, parseISOWeekNums_eight,
      if_pos (by simp [isDigit_digitChar he0, isDigit_digitChar he1, isDigit_digitChar he2,
                       isDigit_digitChar he3, hp1, hp2])]
  rw [charDigitVal_digitChar he0, charDigitVal_digitChar he1, charDigitVal_digitChar he2,
      charDigitVal_digitChar he3]
  have hy : (1000 : Int) * (e3 : Int) + 100 * (e2 : Int) + 10 * (e1 : Int) + (e0 : Int)
      = w.year := by omega
  have hw : (10 : Int) * charDigitVal p1 + charDigitVal p2 = w.week := by omega
  rw [hy, hw]

/-- January 4 as built from new Date(year, 0, 4). -/
theorem dayOfCivil_jan4 (y : Int) : dayOfCivil y 1 4 = jan1 y + 3 := by
  unfold dayOfCivil daysBeforeMonth
  norm_num

/-- The arithmetic core of the ISO-week round trip: re-anchoring on January 4
of the computed ISO year and offsetting by whole weeks recovers the original
Monday. -/
theorem parse_core (d : Int) :
    getMonday ((getWeekInfo (dayOfCivil (getWeekInfo d).year 1 4)).startDate
        + 7 * ((getWeekInfo d).week - (getWeekInfo (dayOfCivil (getWeekInfo d).year 1 4)).week))
      = (getWeekInfo d).startDate := by
  simp only [getWeekInfo, getISOWeek_eq_monday, dayOfCivil_jan4]
  have c1 := jan1_yearOfDay_le (getMonday d + 3)
  have c2 := lt_jan1_yearOfDay_succ (getMonday d + 3)
  have hg := jan1_gap (yearOfDay (getMonday d + 3))
  have hb4 := getMonday_bounds (jan1 (yearOfDay (getMonday d + 3)) + 3)
  have hy4 : yearOfDay (getMonday (jan1 (yearOfDay (getMonday d + 3)) + 3) + 3)
      = yearOfDay (getMonday d + 3) := yearOfDay_unique (by omega) (by omega)
  rw [hy4]
  rw [getMonday_add_week_mul,
      getMonday_of_monday (jsGetDay_getMonday (jan1 (yearOfDay (getMonday d + 3)) + 3))]
  have hmod1 : jsGetDay (getMonday d) = 1 := jsGetDay_getMonday d
  have hmod2 : jsGetDay (getMonday (jan1 (yearOfDay (getMonday d + 3)) + 3)) = 1 :=
    jsGetDay_getMonday (jan1 (yearOfDay (getMonday d + 3)) + 3)
  unfold jsGetDay at hmod1 hmod2
  omega

/-- The round-trip core lifted to the startDate field of the reparsed
WeekInfo. -/
theorem parse_core_startDate (d : Int) :
    (getWeekInfo ((getWeekInfo (dayOfCivil (getWeekInfo d).year 1 4)).startDate
        + 7 * ((getWeekInfo d).week
               - (getWeekInfo (dayOfCivil (getWeekInfo d).year 1 4)).week))).startDate
      = (getWeekInfo d).startDate := by
  have h := parse_core d
  simpa [getWeekInfo] using h

/-! ## C5: format / parse round trip -/

/-- C5 counterexample: the WeekInfo of 0500-06-01 is valid (produced by
getWeekInfo from a date), but its year renders with three digits, the
formatted string fails the four-digit regex and parseISOWeek throws, so the
round trip does not return the original startDate. -/
theorem c5_counterexample :
    (parseISOWeek (formatISOWeek (getWeekInfo (dayOfCivil 500 6 1)))).map WeekInfo.startDate ≠
      some ((getWeekInfo (dayOfCivil 500 6 1)).startDate) := by
  decide

/-- C5 amended: for every WeekInfo produced by getWeekInfo from a date whose
ISO year has four decimal digits, parsing the formatted ISO week string
returns a WeekInfo with the same startDate. -/
theorem c5_parse_format_roundtrip (d : Int)
    (h1 : 1000 ≤ (getWeekInfo d).year) (h2 : (getWeekInfo d).year ≤ 9999) :
    (parseISOWeek (formatISOWeek (getWeekInfo d))).map WeekInfo.startDate =
      some ((getWeekInfo d).startDate) := by
  have hwb := getISOWeek_week_bounds d
  have hw1 : 1 ≤ (getWeekInfo d).week := by simpa [getWeekInfo] using hwb.1
  have hw2 : (getWeekInfo d).week ≤ 53 := by simpa [getWeekInfo] using hwb.2
  have hnums := parse_format_nums (getWeekInfo d) h1 h2 hw1 hw2
  unfold parseISOWeek
  rw [hnums]
  simpa using parse_core_startDate d

/-- C5 witness: the round trip through the formatted string on the week of
2026-01-15. -/
theorem c5_parse_format_roundtrip_witness :
    (1000 ≤ (getWeekInfo (dayOfCivil 2026 1 15)).year) ∧
    ((getWeekInfo (dayOfCivil 2026 1 15)).year ≤ 9999) ∧
    (parseISOWeek (formatISOWeek (getWeekInfo (dayOfCivil 2026 1 15)))).map WeekInfo.startDate =
      some ((getWeekInfo (dayOfCivil 2026 1 15)).startDate) :=
  ⟨by decide, by decide,
   c5_parse_format_roundtrip (dayOfCivil 2026 1 15) (by decide) (by decide)⟩

/-! ## C9: parse validation -/

/-- The numeric field extraction succeeds exactly on the regex match. -/
theorem parseISOWeekNums_isSome (s : String) :
    (parseISOWeekNums s).isSome = matchesISOWeekPattern s := by
  unfold parseISOWeekNums matchesISOWeekPattern
  generalize s.toList = l
  rcases l with _ | ⟨c1, _ | ⟨c2, _ | ⟨c3, _ | ⟨c4, _ | ⟨c5, _ | ⟨c6, _ | ⟨c7,
    _ | ⟨c8, _ | ⟨c9, t⟩⟩⟩⟩⟩⟩⟩⟩⟩ <;>
    first
      | rfl
      | (simp only []; split_ifs with h <;> simp_all)

/-- C9: parseISOWeek fails exactly on strings outside the pattern of four
digits, a dash, W and two digits; every matching string parses without
raising even when the week number is outside the ISO range — 2026-W00 and
2026-W99 both parse, yielding weeks of a different year — so the week range
is never validated. -/
theorem c9_parse_validation :
    (∀ s, (parseISOWeek s).isSome = matchesISOWeekPattern s) ∧
    ((parseISOWeek ("2026-W00")).isSome = true ∧
      (parseISOWeek ("2026-W00")).map WeekInfo.year ≠ some 2026) ∧
    ((parseISOWeek ("2026-W99")).isSome = true ∧
      (parseISOWeek ("2026-W99")).map WeekInfo.year ≠ some 2026) := by
  refine ⟨?_, ⟨by decide, by decide⟩, ⟨by decide, by decide⟩⟩
  intro s
  rw [← parseISOWeekNums_isSome]
  unfold parseISOWeek
  cases hp : parseISOWeekNums s with
  | none => simp [hp]
  | some yw =>
      obtain ⟨y, wk⟩ := yw
      simp [hp]

end WeeklyTodo
